import Mathlib

/-
  Verification development for the Light-L16 RMI core.

  Shallow embedding of:
    - src/protocol/rmi_protocol.c   (framing codec, payload comparisons)
    - src/server/rmi.c              (session loop, auth, restart, upload, list)
    - src/client/src/rmi_client.cpp (frame reader, heartbeat skipping,
                                     published result state)

  Modelling conventions:
    - bytes are Nat values; C byte buffers are List Nat (a uint8_t is < 256,
      stated as a hypothesis where a theorem needs it);
    - C unsigned right shift by k is division by 2^k, mask 0xff is % 256, and
      bitwise-or of byte fields shifted into disjoint lanes is addition;
    - the TCP stream is a List Nat of bytes (client side) or a list of frame
      payloads (server session loop); reads that would block are out of scope:
      theorems are about the data actually delivered;
    - socket writes are assumed delivered (transport failures abort the
      session in the source and are orthogonal to the claims);
    - OS calls (stat, open, write, chmod, rename, fork/exec) are oracles in an
      environment record; file-system side effects are recorded as an
      explicit operation trace where a claim is about them.
-/

namespace RMI

/-- Byte list of an ASCII string, used for protocol keywords. -/
def strBytes (s : String) : List Nat := s.data.map Char.toNat

/-! src/protocol/rmi_protocol.c -/

/-- rmi_read_be32: (d0 shl 24) or (d1 shl 16) or (d2 shl 8) or d3.
    Shifts become multiplication; the or of disjoint byte lanes is addition
    (each operand is a uint8_t moved into its own lane). -/
def rmi_read_be32 (data : List Nat) : Nat :=
  data.getD 0 0 * 16777216 + data.getD 1 0 * 65536 + data.getD 2 0 * 256 +
    data.getD 3 0

/-- rmi_write_be32: out[i] = (value shr (24 - 8i)) and 0xff.
    Right shift is division, the 0xff mask is % 256. -/
def rmi_write_be32 (value : Nat) : List Nat :=
  [value / 16777216 % 256, value / 65536 % 256, value / 256 % 256, value % 256]

/-- rmi_payload_equals: 0 when the lengths differ, else memcmp over the whole
    text (the NULL-pointer guards have no counterpart for Lean lists). -/
def rmi_payload_equals (payload text : List Nat) : Bool :=
  if payload.length != text.length then false else payload == text

/-- rmi_payload_starts_with: 0 when the payload is shorter than the text,
    else memcmp over the text length. -/
def rmi_payload_starts_with (payload text : List Nat) : Bool :=
  if payload.length < text.length then false
  else payload.take text.length == text

/-! Framing (client sendFrame / sendFrameBytes and server send_frame all
    write the 4-byte big-endian header followed by the payload). -/

/-- One encoded frame: 4-byte big-endian length header, then the payload. -/
def encodeFrame (p : List Nat) : List Nat := rmi_write_be32 p.length ++ p

/-- Client receiveFrame (rmi_client.cpp): read exactly 4 header bytes, decode
    the length, reject it when a positive max_bytes cap is exceeded, then read
    exactly that many payload bytes.  Returns the payload and the unread rest
    of the stream; none models a failed read or the cap rejection. -/
def receiveFrame (maxBytes : Nat) (s : List Nat) :
    Option (List Nat × List Nat) :=
  if s.length < 4 then none
  else
    let length := rmi_read_be32 (s.take 4)
    if 0 < maxBytes ∧ maxBytes < length then none
    else if (s.drop 4).length < length then none
    else some ((s.drop 4).take length, (s.drop 4).drop length)

/-- Payload of a heartbeat frame. -/
def heartbeatB : List Nat := strBytes ("HEARTBEAT")

/-- Client receiveFrameSkippingHeartbeats with receiveFrame inlined: read one
    frame; when its payload is exactly HEARTBEAT, loop; otherwise return it.
    The deadline and stop flag only bound real time and cancel the loop; the
    data path modelled here is what the claims are about. -/
def receiveFrameSkippingHeartbeats (maxBytes : Nat) (s : List Nat) :
    Option (List Nat × List Nat) :=
  if _h4 : s.length < 4 then none
  else
    let length := rmi_read_be32 (s.take 4)
    if 0 < maxBytes ∧ maxBytes < length then none
    else if _hlen : (s.drop 4).length < length then none
    else
      let p := (s.drop 4).take length
      let rest := (s.drop 4).drop length
      if p = heartbeatB then receiveFrameSkippingHeartbeats maxBytes rest
      else some (p, rest)
termination_by s.length
decreasing_by
  simp only [List.length_drop]
  omega

/-! src/server/rmi.c: session loop model.

    Frames already read from the socket are a List (List Nat) of payloads.
    read_command truncates the payload at its announced length, NUL-terminates
    it and hands handle_rmi_client a C string; strtok_r splits on space/tab.
-/

/-- The C string seen by the command handlers: bytes up to the first NUL. -/
def cstr (f : List Nat) : List Nat := f.takeWhile (fun b => b != 0)

/-- strtok_r delimiters: space and horizontal tab. -/
def isSepByte (b : Nat) : Bool := b == 32 || b == 9

/-- Accumulator form of strtok_r tokenization (maximal non-delimiter runs). -/
def tokenizeAux : List Nat → List Nat → List (List Nat)
  | [], cur => if cur = [] then [] else [cur.reverse]
  | b :: rest, cur =>
    if isSepByte b then
      if cur = [] then tokenizeAux rest []
      else cur.reverse :: tokenizeAux rest []
    else tokenizeAux rest (b :: cur)

/-- All strtok_r tokens of a command, in order. -/
def tokenize (s : List Nat) : List (List Nat) := tokenizeAux s []

/-- strncmp(cmd, kw, strlen(kw)) == 0 for a NUL-free cmd: the keyword is a
    byte-wise prefix (a shorter cmd mismatches at its terminator because no
    keyword byte is NUL). -/
def startsWithB (c kw : List Nat) : Bool :=
  if c.length < kw.length then false else c.take kw.length == kw

def isDigitByte (b : Nat) : Bool := 48 ≤ b && b ≤ 57

/-- Decimal value of a digit-byte run. -/
def digitsToNat (bs : List Nat) : Nat :=
  bs.foldl (fun acc b => acc * 10 + (b - 48)) 0

/-- strtoul on a whitespace-free token, base 10.  Sign characters, base
    prefixes and ERANGE clamping are not modelled: the handlers reject any
    token that is not all digits the same way strtoul-plus-endptr checks do,
    and values at or beyond 2^64 are rejected by the callers size caps just
    as ERANGE is. -/
def parseULong (bs : List Nat) : Option Nat :=
  if bs ≠ [] ∧ bs.all isDigitByte then some (digitsToNat bs) else none

/-- strtol on a whitespace-free token, base 10, with an optional minus. -/
def parseLong (bs : List Nat) : Option Int :=
  match bs with
  | 45 :: rest =>
    match parseULong rest with
    | some n => some (-(n : Int))
    | none => none
  | _ =>
    match parseULong bs with
    | some n => some ((n : Int))
    | none => none

/-- stat result for the restart check: S_ISREG and the full st_mode bits. -/
structure FileStat where
  isReg : Bool
  mode : Nat
deriving DecidableEq

/-- check_restart_permissions: stat /data/local/tmp/rmi must succeed, report a
    regular file, and st_mode masked with 0777 (mode % 512) must equal 0777
    (511). -/
def check_restart_permissions (st : Option FileStat) : Bool :=
  match st with
  | none => false
  | some s => s.isReg && (s.mode % 512 == 511)

/-- Environment of one server session: the configured credentials, the
    compiled-in version, and oracles for every OS interaction a handler
    performs.  Oracles abstract handlers whose internals are irrelevant to
    the session-level claims. -/
structure ServerEnv where
  user : List Nat
  pass : List Nat
  version : Nat
  restartStat : Option FileStat
  pressOk : Int → Bool
  pressInputOk : Int → Bool
  uploadOk : List Nat → Nat → Bool
  listing : List Nat → Option (List Nat)
  download : List Nat → Option (List Nat)
  deleteOk : List Nat → Bool
  screencap : Option (List Nat)

/-- Result of handle_rmi_client, as returned to the accept loop. -/
inductive Outcome
  | CONTINUE
  | SHUTDOWN
  | RESTART
deriving DecidableEq

/-- One step of the per-client loop: either the session goes on with new
    attempt/auth state (extra counts data frames consumed beyond the command
    frame, 1 for an UPLOAD body), or it ends with an Outcome.  replies lists
    the frames sent for this command. -/
inductive StepRes
  | next (replies : List (List Nat)) (attempts : Nat) (authed : Bool)
      (extra : Nat)
  | done (replies : List (List Nat)) (o : Outcome)
deriving DecidableEq

def okB : List Nat := strBytes ("OK")

def errB (tag : String) : List Nat := strBytes ("ERR " ++ tag)

def cmdB (s : String) : List Nat := strBytes (s)

/-- VERSION reply text; the source formats RMI_VERSION as an unsigned int. -/
def versionReply (v : Nat) : List Nat :=
  strBytes ("VERSION " ++ toString (v % 4294967296))

/-- The successful-AUTH condition: first three strtok_r tokens are AUTH, the
    configured user and the configured password (extra tokens are ignored by
    the source exactly as here). -/
def authSuccess (env : ServerEnv) (c : List Nat) : Bool :=
  match tokenize c with
  | t :: u :: p :: _ => t == cmdB ("AUTH") && u == env.user && p == env.pass
  | _ => false

/-- The authenticated command dispatch of handle_rmi_client, in source order.
    c is the NUL-truncated command; nextFrame is the next inbound frame (for
    the UPLOAD body), none when the stream has ended. -/
def authedDispatch (env : ServerEnv) (attempts : Nat) (c : List Nat)
    (nextFrame : Option (List Nat)) : StepRes :=
  if c = cmdB ("QUIT") then .done [okB] .SHUTDOWN
  else if c = cmdB ("RESTART") then
    if check_restart_permissions env.restartStat then .done [okB] .RESTART
    else .next [errB ("restart")] attempts true 0
  else if c = cmdB ("VERSION") then
    .next [versionReply env.version] attempts true 0
  else if c = cmdB ("HEARTBEAT") then .next [okB] attempts true 0
  else if startsWithB c (cmdB ("PRESS_INPUT")) then
    match tokenize c with
    | _ :: codeStr :: _ =>
      match parseLong codeStr with
      | some k =>
        if env.pressInputOk k then .next [okB] attempts true 0
        else .next [errB ("press")] attempts true 0
      | none => .next [errB ("press")] attempts true 0
    | _ => .next [errB ("press")] attempts true 0
  else if startsWithB c (cmdB ("UPLOAD")) then
    match tokenize c with
    | _ :: path :: sizeStr :: _ =>
      match parseULong sizeStr with
      | some size =>
        if size ≤ 4294967295 then
          match nextFrame with
          | none => .next [errB ("upload")] attempts true 0
          | some df =>
            if df.length ≠ size then .next [errB ("upload")] attempts true 1
            else if env.uploadOk path size then .next [okB] attempts true 1
            else .next [errB ("upload")] attempts true 1
        else .next [errB ("upload")] attempts true 0
      | none => .next [errB ("upload")] attempts true 0
    | _ => .next [errB ("upload")] attempts true 0
  else if startsWithB c (cmdB ("LIST")) then
    match tokenize c with
    | _ :: path :: _ =>
      match env.listing path with
      | some payload => .next [payload] attempts true 0
      | none => .next [errB ("list")] attempts true 0
    | _ => .next [errB ("list")] attempts true 0
  else if startsWithB c (cmdB ("DOWNLOAD")) then
    match tokenize c with
    | _ :: path :: _ =>
      match env.download path with
      | some bytes => .next [okB, bytes] attempts true 0
      | none => .next [errB ("download")] attempts true 0
    | _ => .next [errB ("download")] attempts true 0
  else if startsWithB c (cmdB ("DELETE")) then
    match tokenize c with
    | _ :: path :: _ =>
      if env.deleteOk path then .next [okB] attempts true 0
      else .next [errB ("delete")] attempts true 0
    | _ => .next [errB ("delete")] attempts true 0
  else if startsWithB c (cmdB ("PRESS")) then
    match tokenize c with
    | _ :: codeStr :: _ =>
      match parseLong codeStr with
      | some k =>
        if env.pressOk k then .next [okB] attempts true 0
        else .next [errB ("press")] attempts true 0
      | none => .next [errB ("press")] attempts true 0
    | _ => .next [errB ("press")] attempts true 0
  else if c = cmdB ("SCREENCAP") then
    match env.screencap with
    | some d => .next [d] attempts true 0
    | none => .next [errB ("screencap")] attempts true 0
  else .next [errB ("unknown command")] attempts true 0

/-- One iteration of the per-client loop on a delivered frame f.
    read_command returns 0 for a zero-length frame and -1 for one of 1024
    bytes or more (after draining it); handle_rmi_client treats both returns
    as the end of the session (n <= 0 gives RMI_CONTINUE).  A payload whose
    first byte is NUL is skipped without reply.  Before authentication, a
    non-matching command bumps the attempt counter; the third failure is
    answered with ERR auth failed and ends the session. -/
def serverStep (env : ServerEnv) (attempts : Nat) (authed : Bool)
    (f : List Nat) (nextFrame : Option (List Nat)) : StepRes :=
  if f.length = 0 then .done [] .CONTINUE
  else if 1024 ≤ f.length then .done [] .CONTINUE
  else
    let c := cstr f
    if c = [] then .next [] attempts authed 0
    else if authed then authedDispatch env attempts c nextFrame
    else if authSuccess env c then .next [okB] attempts true 0
    else if 3 ≤ attempts + 1 then .done [errB ("auth failed")] .CONTINUE
    else .next [errB ("auth required")] (attempts + 1) false 0

/-- The whole per-client loop over the delivered frames.  The idle-timeout
    heartbeats the server itself emits depend on wall-clock time and are not
    part of the reply lists; an exhausted stream is what read_command sees as
    a peer close (returns 0, session ends with CONTINUE). -/
def sessionLoop (env : ServerEnv) (attempts : Nat) (authed : Bool) :
    List (List Nat) → List (List Nat) × Outcome
  | [] => ([], .CONTINUE)
  | f :: rest =>
    match serverStep env attempts authed f rest.head? with
    | .done rs o => (rs, o)
    | .next rs a au 0 =>
      let r2 := sessionLoop env a au rest
      (rs ++ r2.1, r2.2)
    | .next rs a au (_ + 1) =>
      match rest with
      | [] => (rs, .CONTINUE)
      | _ :: rest2 =>
        let r2 := sessionLoop env a au rest2
        (rs ++ r2.1, r2.2)

/-! src/server/rmi.c: self-path detection and the UPLOAD receive path. -/

/-- get_self_path drops a trailing " (deleted)" from the readlink result when
    the result is strictly longer than the suffix. -/
def stripDeletedSuffix (s : String) : String :=
  if 10 < s.length ∧ s.takeRight 10 = " (deleted)" then s.dropRight 10 else s

/-- get_self_path: the /proc/self/exe link target with the " (deleted)"
    suffix stripped, falling back to argv[0] (same stripping), else failure.
    readlinkRes / argv0 model the two OS reads. -/
def get_self_path (readlinkRes : Option String) (argv0 : Option String) :
    Option String :=
  match readlinkRes with
  | some link => some (stripDeletedSuffix link)
  | none =>
    match argv0 with
    | some a0 => some (stripDeletedSuffix a0)
    | none => none

/-- is_self_binary_path: the path equals the resolved self path, or the fixed
    path /data/local/tmp/rmi. -/
def is_self_binary_path (selfP : Option String) (path : String) : Bool :=
  (match selfP with
   | some sp => path == sp
   | none => false) || path == "/data/local/tmp/rmi"

/-- File-system operations performed by recv_frame_to_file, recorded in call
    order.  openW records every open for writing (O_CREAT, O_TRUNC, O_WRONLY)
    attempt; chmodOp and renameOp record the attempts as issued; drainOp n
    records drain_bytes reading n payload bytes off the socket. -/
inductive FsOp
  | openW : String → FsOp
  | writeData : String → List Nat → FsOp
  | chmodOp : String → Nat → FsOp
  | renameOp : String → String → FsOp
  | unlinkOp : String → FsOp
  | drainOp : Nat → FsOp
deriving DecidableEq

/-- OS behaviour oracles for one recv_frame_to_file call.  writeFailAt is the
    index of the 4096-byte chunk whose writeall fails (none: all writes
    succeed). -/
structure UploadEnv where
  openOk : String → Bool
  writeFailAt : Option Nat
  chmodOk : String → Bool
  renameOk : String → String → Bool

/-- The 4096-byte chunk loop of recv_frame_to_file: each round reads one
    chunk off the socket (read_exact) and then writes it; a failed write
    stops the loop at once, with the bytes of later chunks left unread.
    Returns (write loop succeeded, payload bytes consumed from the socket,
    trace).  Structurally recursive on fuel, which callers set to the payload
    length (every chunk consumes at least one byte). -/
def chunkWriteFuel (env : UploadEnv) (wpath : String) :
    Nat → Nat → List Nat → Bool × Nat × List FsOp
  | _, _, [] => (true, 0, [])
  | 0, _, _ :: _ => (false, 0, [])
  | fuel + 1, idx, b :: tl =>
    let chunk := (b :: tl).take 4096
    let restPayload := (b :: tl).drop 4096
    if env.writeFailAt = some idx then (false, chunk.length, [])
    else
      let r := chunkWriteFuel env wpath fuel (idx + 1) restPayload
      (r.1, chunk.length + r.2.1, FsOp.writeData wpath chunk :: r.2.2)

/-- recv_frame_to_file.  frame is the payload of the data frame actually on
    the wire (its header announces frame.length); expected_len is the size
    argument of the UPLOAD command.  Result: (success, payload bytes consumed
    from the socket, file-system trace).
    The branch of the source at lines 424-430 (chmod of a self path when
    use_tmp is false) is unreachable, because use_tmp is set exactly when
    is_self_binary_path holds, and is omitted. -/
def recv_frame_to_file (env : UploadEnv) (selfP : Option String)
    (path : String) (expected_len : Nat) (frame : List Nat) :
    Bool × Nat × List FsOp :=
  if frame.length ≠ expected_len then
    (false, frame.length, [FsOp.drainOp frame.length])
  else
    let isSelf := is_self_binary_path selfP path
    if isSelf ∧ 4096 ≤ path.length + 4 then
      (false, frame.length, [FsOp.drainOp frame.length])
    else
      let wpath := if isSelf then path ++ ".new" else path
      if env.openOk wpath = false then
        (false, frame.length, [FsOp.openW wpath, FsOp.drainOp frame.length])
      else
        let r := chunkWriteFuel env wpath frame.length 0 frame
        let trace := FsOp.openW wpath :: r.2.2
        if r.1 = false then (false, r.2.1, trace)
        else if isSelf then
          let t1 := trace ++ [FsOp.chmodOp wpath 511]
          if env.chmodOk wpath = false then
            (false, r.2.1, t1 ++ [FsOp.unlinkOp wpath])
          else
            let t2 := t1 ++ [FsOp.renameOp wpath path]
            if env.renameOk wpath path = false then
              (false, r.2.1, t2 ++ [FsOp.unlinkOp wpath])
            else (true, r.2.1, t2)
        else (true, r.2.1, trace)

/-- The payload bytes a trace writes, in order. -/
def writtenBytes : List FsOp → List Nat
  | [] => []
  | FsOp.writeData _ ch :: t => ch ++ writtenBytes t
  | _ :: t => writtenBytes t

/-! src/server/rmi.c: send_file_list. -/

/-- What lstat reports for a directory entry (d_type is never consulted). -/
inductive FileKind
  | dir
  | reg
  | symlink
  | other
deriving DecidableEq

/-- One readdir entry with its lstat result (none: lstat failed). -/
structure DirEnt where
  name : String
  stat : Option (FileKind × Int)
deriving DecidableEq

/-- join_path succeeds when the joined path fits in PATH_MAX (4096). -/
def joinPathOk (dir name : String) : Bool :=
  if dir.length = 0 then false
  else if 1 < dir.length ∧ dir.takeRight 1 = "/" then
    dir.length + name.length < 4096
  else if dir = "/" then 1 + name.length < 4096
  else dir.length + 1 + name.length < 4096

/-- The line send_file_list emits for one entry, none when the entry is
    skipped (dot entries, join_path overflow, lstat failure, or a formatted
    line at or beyond the snprintf buffer of PATH_MAX + 64 bytes).  Note the
    source tests only S_ISDIR: every non-directory entry, regular or not,
    takes the F branch. -/
def entryLine (path : String) (e : DirEnt) : Option String :=
  if e.name = "." ∨ e.name = ".." then none
  else if joinPathOk path e.name = false then none
  else
    match e.stat with
    | none => none
    | some (k, sz) =>
      let line :=
        if k = FileKind.dir then "D\t" ++ e.name ++ "\n"
        else "F\t" ++ e.name ++ "\t" ++ toString sz ++ "\n"
      if 4160 ≤ line.length then none else some line

/-- The buffer_append loop: needed = len + line + 1 may not exceed
    RMI_LIST_MAX_BYTES (1 MiB); exceeding it fails the whole listing (the
    handler then sends ERR list). -/
def buildListingAux (path : String) (acc : String) :
    List DirEnt → Option String
  | [] => some acc
  | e :: rest =>
    match entryLine path e with
    | none => buildListingAux path acc rest
    | some line =>
      if 1048576 < acc.length + line.length + 1 then none
      else buildListingAux path (acc ++ line) rest

/-- send_file_list payload for a readable directory: the concatenated entry
    lines, sent as one frame (an empty directory sends an empty frame). -/
def buildListing (path : String) (entries : List DirEnt) : Option String :=
  if path.length = 0 then none else buildListingAux path ("") entries

/-! src/client/src/rmi_client.cpp: published result state. -/

/-- DownloadResult of RmiClient (header defaults: all zero / empty / false).
    The version counter is uint64_t; increments stay far below 2^64, so it
    is a Nat here. -/
structure DownloadResult where
  data : List Nat
  error : String
  version : Nat
  total : Nat
  received : Nat
  in_progress : Bool
deriving DecidableEq

def DownloadResult.init : DownloadResult :=
  { data := [], error := "", version := 0, total := 0, received := 0,
    in_progress := false }

/-- The download-success critical section of workerLoop (lines 603-610). -/
def applyDownloadSuccess (fileData : List Nat) (r : DownloadResult) :
    DownloadResult :=
  { r with
    data := fileData, error := "", total := fileData.length,
    received := fileData.length, in_progress := false,
    version := r.version + 1 }

/-- The download-error critical sections of workerLoop (ERR reply and
    unexpected reply both store a message and bump the version). -/
def applyDownloadError (msg : String) (r : DownloadResult) : DownloadResult :=
  { r with
    data := [], error := msg, total := 0, received := 0,
    in_progress := false, version := r.version + 1 }

/-- setDownloadProgress: received, total and in_progress are stored with no
    version bump. -/
def applyDownloadProgress (received total : Nat) (inProg : Bool)
    (r : DownloadResult) : DownloadResult :=
  { r with received := received, total := total, in_progress := inProg }

/-- The requestDownload critical section: fields reset, in_progress set, no
    version bump. -/
def applyDownloadInit (r : DownloadResult) : DownloadResult :=
  { r with
    data := [], error := "", total := 0, received := 0,
    in_progress := true }

/-- FileEntry: name, is_dir, size. -/
structure FileEntry where
  name : String
  is_dir : Bool
  size : Nat
deriving DecidableEq

/-- FileListResult of RmiClient. -/
structure FileListResult where
  entries : List FileEntry
  error : String
  version : Nat
deriving DecidableEq

/-- The list-success critical section of workerLoop (lines 574-578). -/
def applyListSuccess (es : List FileEntry) (r : FileListResult) :
    FileListResult :=
  { r with entries := es, error := "", version := r.version + 1 }

/-- The list-failure critical section of workerLoop (lines 568-572). -/
def applyListFailure (msg : String) (r : FileListResult) : FileListResult :=
  { r with entries := [], error := msg, version := r.version + 1 }

/-- Screencap shared state of RmiClient. -/
structure ScreencapState where
  png : List Nat
  pixels : List Nat
  width : Int
  height : Int
  path : String
  version : Nat
deriving DecidableEq

/-- setScreencapData: stores the decoded capture and bumps the version. -/
def applyScreencapData (png pixels : List Nat) (w h : Int)
    (s : ScreencapState) : ScreencapState :=
  { s with
    png := png, pixels := pixels, width := w, height := h,
    path := "", version := s.version + 1 }

/-- The downloads_ map, keyed by remote path.  std::unordered_map has unique
    keys; an association list queried and updated at the first match models
    it exactly. -/
def lookupDl : List (String × DownloadResult) → String →
    Option DownloadResult
  | [], _ => none
  | (k, r) :: t, p => if k = p then some r else lookupDl t p

def updateDl : List (String × DownloadResult) → String → DownloadResult →
    List (String × DownloadResult)
  | [], _, _ => []
  | (k, r) :: t, p, v =>
    if k = p then (k, v) :: t else (k, r) :: updateDl t p v

/-- getDownloadResult with a non-null data pointer: a missing entry returns
    false and leaves the map alone; a present entry returns true, moves the
    stored bytes out (clearing them in the map), and copies error and
    version.  Result: ((found, data, error, version), updated map). -/
def getDownloadResult (m : List (String × DownloadResult)) (path : String) :
    (Bool × List Nat × String × Nat) × List (String × DownloadResult) :=
  match lookupDl m path with
  | none => ((false, [], "", 0), m)
  | some r => ((true, r.data, r.error, r.version),
               updateDl m path { r with data := [] })

/-! Concrete environments used to instantiate the theorems. -/

/-- A server environment whose OS oracles all fail (default credentials). -/
def envDeny : ServerEnv :=
  { user := strBytes ("l16"), pass := strBytes ("l16"), version := 1,
    restartStat := none, pressOk := fun _ => false,
    pressInputOk := fun _ => false, uploadOk := fun _ _ => false,
    listing := fun _ => none, download := fun _ => none,
    deleteOk := fun _ => false, screencap := none }

/-- A server environment whose OS oracles all succeed and whose restart stat
    reports a regular file of mode 0777. -/
def envAllow : ServerEnv :=
  { user := strBytes ("l16"), pass := strBytes ("l16"), version := 1,
    restartStat := some { isReg := true, mode := 511 },
    pressOk := fun _ => true, pressInputOk := fun _ => true,
    uploadOk := fun _ _ => true, listing := fun _ => some [],
    download := fun _ => some [], deleteOk := fun _ => true,
    screencap := some [] }

/-- Upload oracles: everything succeeds. -/
def uenvAllOk : UploadEnv :=
  { openOk := fun _ => true, writeFailAt := none, chmodOk := fun _ => true,
    renameOk := fun _ _ => true }

/-- Upload oracles: the very first 4096-byte chunk write fails. -/
def uenvWriteFail0 : UploadEnv :=
  { openOk := fun _ => true, writeFailAt := some 0, chmodOk := fun _ => true,
    renameOk := fun _ _ => true }

/-- Upload oracles: opening the destination fails. -/
def uenvOpenFail : UploadEnv :=
  { openOk := fun _ => false, writeFailAt := none, chmodOk := fun _ => true,
    renameOk := fun _ _ => true }

/-- A frame that reaches the pre-auth branch and fails it: the frame is a
    readable command (nonzero length below the 1024-byte command buffer,
    first byte not NUL) whose tokens are not AUTH with both configured
    credentials. -/
def failsPreAuth (env : ServerEnv) (f : List Nat) : Prop :=
  f ≠ [] ∧ f.length < 1024 ∧ cstr f ≠ [] ∧ authSuccess env (cstr f) = false

/-! Theorems.  Helper lemmas first, then one theorem per claim (with its
    witness or counterexample). -/

theorem length_write_be32 (v : Nat) : (rmi_write_be32 v).length = 4 := by
  simp [rmi_write_be32]

theorem read_write_be32 (v : Nat) (h : v < 4294967296) :
    rmi_read_be32 (rmi_write_be32 v) = v := by
  simp only [rmi_read_be32, rmi_write_be32, List.getD_cons_zero,
    List.getD_cons_succ]
  omega

theorem take4_encode (p s : List Nat) :
    (encodeFrame p ++ s).take 4 = rmi_write_be32 p.length := by
  have h := List.take_left (rmi_write_be32 p.length) (p ++ s)
  rw [length_write_be32] at h
  simpa [encodeFrame, List.append_assoc] using h

theorem drop4_encode (p s : List Nat) :
    (encodeFrame p ++ s).drop 4 = p ++ s := by
  have h := List.drop_left (rmi_write_be32 p.length) (p ++ s)
  rw [length_write_be32] at h
  simpa [encodeFrame, List.append_assoc] using h

theorem length_encode_append (p s : List Nat) :
    (encodeFrame p ++ s).length = 4 + p.length + s.length := by
  simp [encodeFrame, length_write_be32, List.length_append]
  omega

theorem receiveFrame_encode (m : Nat) (p s : List Nat)
    (hp : p.length < 4294967296) (hm : ¬(0 < m ∧ m < p.length)) :
    receiveFrame m (encodeFrame p ++ s) = some (p, s) := by
  have h4 : ¬ ((encodeFrame p ++ s).length < 4) := by
    rw [length_encode_append]; omega
  rw [receiveFrame, if_neg h4]
  simp only [take4_encode, drop4_encode, read_write_be32 _ hp]
  rw [if_neg hm]
  have hlen : ¬ ((p ++ s).length < p.length) := by
    simp [List.length_append]
  rw [if_neg hlen, List.take_left, List.drop_left]

/-- Claim C3: encoding any payload of length at most u32 max as a 4-byte
    big-endian header plus the payload, then decoding with a header read and
    an exact-length payload read, returns the original payload (and the rest
    of the stream untouched); rmi_read_be32 and rmi_write_be32 are mutually
    inverse on u32 values and on 4-byte sequences. -/
theorem C3_frame_roundtrip :
    (∀ v : Nat, v < 4294967296 →
      rmi_read_be32 (rmi_write_be32 v) = v) ∧
    (∀ b0 b1 b2 b3 : Nat, b0 < 256 → b1 < 256 → b2 < 256 → b3 < 256 →
      rmi_write_be32 (rmi_read_be32 [b0, b1, b2, b3]) = [b0, b1, b2, b3]) ∧
    (∀ p rest : List Nat, p.length < 4294967296 →
      receiveFrame 0 (encodeFrame p ++ rest) = some (p, rest)) := by
  refine ⟨fun v h => read_write_be32 v h, ?_, ?_⟩
  · intro b0 b1 b2 b3 h0 h1 h2 h3
    simp [rmi_read_be32, rmi_write_be32]
    refine ⟨?_, ?_, ?_, ?_⟩ <;> omega
  · intro p rest hp
    exact receiveFrame_encode 0 p rest hp (by omega)

theorem C3_frame_roundtrip_witness :
    rmi_read_be32 (rmi_write_be32 305419896) = 305419896 ∧
    rmi_write_be32 (rmi_read_be32 [18, 52, 86, 120]) = [18, 52, 86, 120] ∧
    receiveFrame 0 (encodeFrame [1, 2, 3] ++ [9]) = some ([1, 2, 3], [9]) :=
  ⟨C3_frame_roundtrip.1 305419896 (by decide),
   C3_frame_roundtrip.2.1 18 52 86 120 (by decide) (by decide) (by decide)
     (by decide),
   C3_frame_roundtrip.2.2 [1, 2, 3] [9] (by decide)⟩

theorem heartbeatB_length : heartbeatB.length = 9 := by decide

/-- One unfolding of the skip loop at a frame boundary. -/
theorem skipHB_step (m : Nat) (p s : List Nat) (hp : p.length < 4294967296)
    (hm : ¬(0 < m ∧ m < p.length)) :
    receiveFrameSkippingHeartbeats m (encodeFrame p ++ s) =
      if p = heartbeatB then receiveFrameSkippingHeartbeats m s
      else some (p, s) := by
  rw [receiveFrameSkippingHeartbeats]
  have h4 : ¬ ((encodeFrame p ++ s).length < 4) := by
    rw [length_encode_append]; omega
  rw [dif_neg h4]
  simp only [take4_encode, drop4_encode, read_write_be32 _ hp]
  rw [if_neg hm]
  have hlen : ¬ ((p ++ s).length < p.length) := by
    simp [List.length_append]
  rw [dif_neg hlen, List.take_left, List.drop_left]

/-- The skip loop never returns a heartbeat payload (strong induction on the
    length of the byte stream). -/
theorem skipHB_ne_heartbeat (n : Nat) :
    ∀ (s : List Nat) (m : Nat) (p rest : List Nat), s.length ≤ n →
      receiveFrameSkippingHeartbeats m s = some (p, rest) →
      p ≠ heartbeatB := by
  induction n with
  | zero =>
    intro s m p rest hle h
    rw [receiveFrameSkippingHeartbeats] at h
    have hs : s.length < 4 := by omega
    rw [dif_pos hs] at h
    exact absurd h (by simp)
  | succ n ih =>
    intro s m p rest hle h
    rw [receiveFrameSkippingHeartbeats] at h
    by_cases hs : s.length < 4
    · rw [dif_pos hs] at h
      exact absurd h (by simp)
    · rw [dif_neg hs] at h
      simp only at h
      split at h
      · exact absurd h (by simp)
      · split at h
        · exact absurd h (by simp)
        · split at h
          · exact ih _ m p rest (by
              simp only [List.length_drop]
              omega) h
          · rename_i hne
            rw [Option.some.injEq, Prod.mk.injEq] at h
            rw [← h.1]
            exact hne


/-- Claim C4: receiveFrameSkippingHeartbeats never returns a HEARTBEAT
    payload: every leading frame whose payload is exactly HEARTBEAT is
    discarded (the read position moves past it and nothing is returned for
    it), and the first frame whose payload differs is returned as-is. -/
theorem C4_skip_heartbeats :
    (∀ (m : Nat) (s p rest : List Nat),
      receiveFrameSkippingHeartbeats m s = some (p, rest) →
      p ≠ heartbeatB) ∧
    (∀ (m : Nat) (s : List Nat), m = 0 ∨ 9 ≤ m →
      receiveFrameSkippingHeartbeats m (encodeFrame heartbeatB ++ s) =
        receiveFrameSkippingHeartbeats m s) ∧
    (∀ (m : Nat) (s p : List Nat), p ≠ heartbeatB →
      p.length < 4294967296 → m = 0 ∨ p.length ≤ m →
      receiveFrameSkippingHeartbeats m (encodeFrame p ++ s) = some (p, s)) := by
  refine ⟨?_, ?_, ?_⟩
  · exact fun m s p rest h =>
      skipHB_ne_heartbeat s.length s m p rest le_rfl h
  · intro m s hm
    rw [skipHB_step m heartbeatB s
      (by rw [heartbeatB_length]; omega)
      (by rw [heartbeatB_length]; rcases hm with h | h <;> omega)]
    rw [if_pos rfl]
  · intro m s p hne hlen hm
    rw [skipHB_step m p s hlen (by rcases hm with h | h <;> omega)]
    rw [if_neg hne]

theorem C4_skip_heartbeats_witness :
    receiveFrameSkippingHeartbeats 0
        (encodeFrame heartbeatB ++ encodeFrame [7]) =
      receiveFrameSkippingHeartbeats 0 (encodeFrame [7]) ∧
    receiveFrameSkippingHeartbeats 0 (encodeFrame [7] ++ []) =
      some ([7], []) :=
  ⟨C4_skip_heartbeats.2.1 0 (encodeFrame [7]) (Or.inl rfl),
   C4_skip_heartbeats.2.2 0 [] [7] (by decide) (by decide) (Or.inl rfl)⟩

/-! Session-loop unfolding helpers. -/

theorem sessionLoop_cons_done (env : ServerEnv) (a : Nat) (au : Bool)
    (f : List Nat) (rest : List (List Nat)) (rs : List (List Nat))
    (o : Outcome) (h : serverStep env a au f rest.head? = .done rs o) :
    sessionLoop env a au (f :: rest) = (rs, o) := by
  rw [sessionLoop, h]

theorem sessionLoop_cons_next (env : ServerEnv) (a : Nat) (au : Bool)
    (f : List Nat) (rest : List (List Nat)) (rs : List (List Nat))
    (a2 : Nat) (au2 : Bool)
    (h : serverStep env a au f rest.head? = .next rs a2 au2 0) :
    sessionLoop env a au (f :: rest) =
      (rs ++ (sessionLoop env a2 au2 rest).1,
       (sessionLoop env a2 au2 rest).2) := by
  rw [sessionLoop, h]

/-- A failing pre-auth frame takes the attempt-counting branch. -/
theorem preauth_fail_step (env : ServerEnv) (a : Nat) (f : List Nat)
    (nextF : Option (List Nat)) (hf : failsPreAuth env f) :
    serverStep env a false f nextF =
      if 3 ≤ a + 1 then StepRes.done [errB ("auth failed")] .CONTINUE
      else StepRes.next [errB ("auth required")] (a + 1) false 0 := by
  obtain ⟨h1, h2, h3, h4⟩ := hf
  have hlen0 : ¬ f.length = 0 := fun h => h1 (List.length_eq_zero.mp h)
  simp only [serverStep]
  rw [if_neg hlen0, if_neg (by omega : ¬ 1024 ≤ f.length), if_neg h3]
  simp [h4]

/-- Claim C1: before authentication, every failing attempt strictly before
    the third is answered with ERR auth required and bumps the counter; the
    third failing attempt is answered with ERR auth failed and the session
    returns CONTINUE to the accept loop, with every later frame of the
    connection ignored (so no later AUTH is honored); and any readable
    command whose first token is not AUTH fails the attempt. -/
theorem C1_auth_escalation :
    (∀ (env : ServerEnv) (f : List Nat), f ≠ [] → f.length < 1024 →
      cstr f ≠ [] → (tokenize (cstr f)).head? ≠ some (cmdB ("AUTH")) →
      failsPreAuth env f) ∧
    (∀ (env : ServerEnv) (a : Nat) (f : List Nat) (rest : List (List Nat)),
      failsPreAuth env f → a + 1 < 3 →
      sessionLoop env a false (f :: rest) =
        (errB ("auth required") :: (sessionLoop env (a + 1) false rest).1,
         (sessionLoop env (a + 1) false rest).2)) ∧
    (∀ (env : ServerEnv) (a : Nat) (f : List Nat) (rest : List (List Nat)),
      failsPreAuth env f → 3 ≤ a + 1 →
      sessionLoop env a false (f :: rest) =
        ([errB ("auth failed")], .CONTINUE)) ∧
    (∀ (env : ServerEnv) (f1 f2 f3 : List Nat) (rest : List (List Nat)),
      failsPreAuth env f1 → failsPreAuth env f2 → failsPreAuth env f3 →
      sessionLoop env 0 false (f1 :: f2 :: f3 :: rest) =
        ([errB ("auth required"), errB ("auth required"),
          errB ("auth failed")], .CONTINUE)) := by
  have hreq : ∀ (env : ServerEnv) (a : Nat) (f : List Nat)
      (rest : List (List Nat)), failsPreAuth env f → a + 1 < 3 →
      sessionLoop env a false (f :: rest) =
        (errB ("auth required") :: (sessionLoop env (a + 1) false rest).1,
         (sessionLoop env (a + 1) false rest).2) := by
    intro env a f rest hf hlt
    have hstep := preauth_fail_step env a f rest.head? hf
    rw [if_neg (by omega : ¬ 3 ≤ a + 1)] at hstep
    rw [sessionLoop_cons_next env a false f rest _ _ _ hstep]
    simp
  have hfail : ∀ (env : ServerEnv) (a : Nat) (f : List Nat)
      (rest : List (List Nat)), failsPreAuth env f → 3 ≤ a + 1 →
      sessionLoop env a false (f :: rest) =
        ([errB ("auth failed")], .CONTINUE) := by
    intro env a f rest hf hge
    have hstep := preauth_fail_step env a f rest.head? hf
    rw [if_pos hge] at hstep
    exact sessionLoop_cons_done env a false f rest _ _ hstep
  refine ⟨?_, hreq, hfail, ?_⟩
  · intro env f h1 h2 h3 h4
    refine ⟨h1, h2, h3, ?_⟩
    rw [authSuccess]
    rcases htok : tokenize (cstr f) with _ | ⟨t, _ | ⟨u, _ | ⟨p, ps⟩⟩⟩
    · rfl
    · rfl
    · rfl
    · rw [htok] at h4
      simp only [List.head?_cons, ne_eq, Option.some.injEq] at h4
      simp [h4]
  · intro env f1 f2 f3 rest hf1 hf2 hf3
    rw [hreq env 0 f1 (f2 :: f3 :: rest) hf1 (by omega)]
    rw [hreq env 1 f2 (f3 :: rest) hf2 (by omega)]
    rw [hfail env 2 f3 rest hf3 (by omega)]

theorem C1_auth_escalation_witness :
    failsPreAuth envDeny (cmdB ("AUTH bad bad")) ∧
    sessionLoop envDeny 0 false
        [cmdB ("AUTH bad bad"), cmdB ("AUTH bad bad"), cmdB ("AUTH bad bad"),
         cmdB ("QUIT")] =
      ([errB ("auth required"), errB ("auth required"),
        errB ("auth failed")], .CONTINUE) := by
  have hf : failsPreAuth envDeny (cmdB ("AUTH bad bad")) := by
    refine ⟨by decide, by decide, by decide, by decide⟩
  exact ⟨hf,
    C1_auth_escalation.2.2.2 envDeny _ _ _ [cmdB ("QUIT")] hf hf hf⟩

/-- Claim C9 counterexample: on the server a zero-length frame DOES end the
    session.  read_command returns 0 for it and handle_rmi_client returns
    RMI_CONTINUE on n <= 0: a QUIT sent after an empty frame draws no reply
    and the outcome is CONTINUE, while the same QUIT without the empty frame
    is answered OK with outcome SHUTDOWN. -/
theorem C9_zero_frame_counterexample :
    sessionLoop envDeny 0 true ([] :: [cmdB ("QUIT")]) = ([], .CONTINUE) ∧
    sessionLoop envDeny 0 true [cmdB ("QUIT")] = ([okB], .SHUTDOWN) := by
  constructor
  · decide
  · decide

/-- Claim C9 (amended): a zero-length frame is well formed on the wire and
    the client accepts it (receiveFrame returns an empty payload), and the
    payload comparisons return false against longer keywords; but the server
    session treats the read_command result 0 for such a frame as a peer
    close: it sends no reply and ends the session with CONTINUE. -/
theorem C9_zero_frame :
    (∀ p t : List Nat, p.length ≠ t.length →
      rmi_payload_equals p t = false) ∧
    (∀ p t : List Nat, p.length < t.length →
      rmi_payload_starts_with p t = false) ∧
    (∀ (m : Nat) (s : List Nat),
      receiveFrame m ([0, 0, 0, 0] ++ s) = some ([], s)) ∧
    (∀ (env : ServerEnv) (a : Nat) (au : Bool) (rest : List (List Nat)),
      sessionLoop env a au ([] :: rest) = ([], .CONTINUE)) := by
  refine ⟨?_, ?_, ?_, ?_⟩
  · intro p t h
    simp [rmi_payload_equals, h]
  · intro p t h
    simp [rmi_payload_starts_with, h, Nat.not_lt.mpr (Nat.le_of_lt h)]
  · intro m s
    have he : encodeFrame [] ++ s = [0, 0, 0, 0] ++ s := by rfl
    rw [← he]
    exact receiveFrame_encode m [] s (by decide) (by simp)
  · intro env a au rest
    exact sessionLoop_cons_done env a au [] rest [] .CONTINUE rfl

theorem C9_zero_frame_witness :
    rmi_payload_equals [] okB = false ∧
    rmi_payload_starts_with [] (strBytes ("ERR")) = false ∧
    receiveFrame 0 ([0, 0, 0, 0] ++ [1, 2]) = some ([], [1, 2]) :=
  ⟨C9_zero_frame.1 [] okB (by decide),
   C9_zero_frame.2.1 [] (strBytes ("ERR")) (by decide),
   C9_zero_frame.2.2.1 0 [1, 2]⟩

/-- An authenticated RESTART command dispatches on the permission check. -/
theorem restart_step (env : ServerEnv) (a : Nat)
    (nextF : Option (List Nat)) :
    serverStep env a true (cmdB ("RESTART")) nextF =
      if check_restart_permissions env.restartStat then
        StepRes.done [okB] .RESTART
      else StepRes.next [errB ("restart")] a true 0 := by
  have hc : cstr (cmdB ("RESTART")) = cmdB ("RESTART") := by decide
  simp only [serverStep, hc]
  rw [if_neg (by decide : ¬ (cmdB ("RESTART")).length = 0),
    if_neg (by decide : ¬ 1024 ≤ (cmdB ("RESTART")).length),
    if_neg (by decide : ¬ cmdB ("RESTART") = ([] : List Nat)),
    if_pos trivial]
  simp only [authedDispatch]
  rw [if_pos trivial, if_neg (by decide : ¬ cmdB ("RESTART") = cmdB ("QUIT"))]

/-- Claim C5: an authenticated RESTART is answered OK with session outcome
    RESTART exactly when check_restart_permissions passes, which holds iff
    the stat of the expected binary path reports a regular file whose low
    permission bits (st_mode masked with 0777) are exactly 0777; otherwise
    the reply is ERR restart and the loop continues authenticated. -/
theorem C5_restart_gate :
    (∀ (env : ServerEnv) (a : Nat) (rest : List (List Nat)),
      check_restart_permissions env.restartStat = true →
      sessionLoop env a true (cmdB ("RESTART") :: rest) =
        ([okB], .RESTART)) ∧
    (∀ (env : ServerEnv) (a : Nat) (rest : List (List Nat)),
      check_restart_permissions env.restartStat = false →
      sessionLoop env a true (cmdB ("RESTART") :: rest) =
        (errB ("restart") :: (sessionLoop env a true rest).1,
         (sessionLoop env a true rest).2)) ∧
    (∀ st : Option FileStat, check_restart_permissions st = true ↔
      ∃ fs : FileStat, st = some fs ∧ fs.isReg = true ∧
        fs.mode % 512 = 511) := by
  refine ⟨?_, ?_, ?_⟩
  · intro env a rest h
    have hstep := restart_step env a rest.head?
    rw [if_pos h] at hstep
    exact sessionLoop_cons_done env a true _ rest _ _ hstep
  · intro env a rest h
    have hstep := restart_step env a rest.head?
    rw [if_neg (by simp [h])] at hstep
    rw [sessionLoop_cons_next env a true _ rest _ _ _ hstep]
    simp
  · intro st
    cases st with
    | none => simp [check_restart_permissions]
    | some fs =>
      simp [check_restart_permissions, Bool.and_eq_true, beq_iff_eq]

theorem C5_restart_gate_witness :
    sessionLoop envAllow 0 true [cmdB ("RESTART")] = ([okB], .RESTART) ∧
    sessionLoop envDeny 0 true [cmdB ("RESTART")] =
      (errB ("restart") :: (sessionLoop envDeny 0 true []).1,
       (sessionLoop envDeny 0 true []).2) :=
  ⟨C5_restart_gate.1 envAllow 0 [] (by decide),
   C5_restart_gate.2.1 envDeny 0 [] (by decide)⟩

/-! Chunk loop lemmas for recv_frame_to_file. -/

/-- Every operation the chunk loop records is a write to its target file. -/
theorem chunkWrite_ops_writeData (env : UploadEnv) (w : String) :
    ∀ (fuel idx : Nat) (payload : List Nat) (op : FsOp),
      op ∈ (chunkWriteFuel env w fuel idx payload).2.2 →
      ∃ ch, op = FsOp.writeData w ch := by
  intro fuel
  induction fuel with
  | zero =>
    intro idx payload op h
    cases payload <;> simp [chunkWriteFuel] at h
  | succ n ih =>
    intro idx payload op h
    cases payload with
    | nil => simp [chunkWriteFuel] at h
    | cons b tl =>
      simp only [chunkWriteFuel] at h
      split at h
      · simp at h
      · rw [List.mem_cons] at h
        rcases h with h | h
        · exact ⟨_, h⟩
        · exact ih _ _ op h

/-- With no write failure and enough fuel, the chunk loop succeeds, consumes
    exactly the payload, and writes exactly the payload. -/
theorem chunkWrite_success (env : UploadEnv) (w : String)
    (hw : env.writeFailAt = none) :
    ∀ (fuel idx : Nat) (payload : List Nat), payload.length ≤ fuel →
      (chunkWriteFuel env w fuel idx payload).1 = true ∧
      (chunkWriteFuel env w fuel idx payload).2.1 = payload.length ∧
      writtenBytes (chunkWriteFuel env w fuel idx payload).2.2 = payload := by
  intro fuel
  induction fuel with
  | zero =>
    intro idx payload hle
    have hnil : payload = [] := List.length_eq_zero.mp (by omega)
    subst hnil
    simp [chunkWriteFuel, writtenBytes]
  | succ n ih =>
    intro idx payload hle
    cases payload with
    | nil => simp [chunkWriteFuel, writtenBytes]
    | cons b tl =>
      simp only [chunkWriteFuel]
      rw [if_neg (by simp [hw])]
      have hrest := ih (idx + 1) ((b :: tl).drop 4096)
        (by simp only [List.length_drop]; simp at hle ⊢; omega)
      refine ⟨hrest.1, ?_, ?_⟩
      · rw [hrest.2.1]
        simp only [List.length_take, List.length_drop]
        simp
        omega
      · show ((b :: tl).take 4096) ++
          writtenBytes (chunkWriteFuel env w n (idx + 1)
            ((b :: tl).drop 4096)).2.2 = b :: tl
        rw [hrest.2.2, List.take_append_drop]

/-- Claim C2: when the UPLOAD target is the server binary path (the
    readlink target of /proc/self/exe with a trailing " (deleted)" stripped,
    or the fixed /data/local/tmp/rmi), the received bytes go to path.new,
    which is then chmod 0777 and renamed onto path, in that order; under any
    oracle behaviour the only file opened for writing is path.new, which is
    a different name from path, so the running image is never written. -/
theorem C2_self_upload :
    (∀ (env : UploadEnv) (selfP : Option String) (path : String)
        (frame : List Nat),
      is_self_binary_path selfP path = true →
      path.length + 4 < 4096 →
      env.openOk (path ++ ".new") = true →
      env.writeFailAt = none →
      env.chmodOk (path ++ ".new") = true →
      env.renameOk (path ++ ".new") path = true →
      recv_frame_to_file env selfP path frame.length frame =
        (true, frame.length,
          FsOp.openW (path ++ ".new") ::
            ((chunkWriteFuel env (path ++ ".new") frame.length 0
              frame).2.2 ++
             [FsOp.chmodOp (path ++ ".new") 511,
              FsOp.renameOp (path ++ ".new") path])) ∧
      writtenBytes (chunkWriteFuel env (path ++ ".new") frame.length 0
        frame).2.2 = frame) ∧
    (∀ (env : UploadEnv) (selfP : Option String) (path : String)
        (frame : List Nat) (q : String),
      is_self_binary_path selfP path = true →
      path.length + 4 < 4096 →
      FsOp.openW q ∈
        (recv_frame_to_file env selfP path frame.length frame).2.2 →
      q = path ++ ".new") ∧
    (∀ path : String, path ++ ".new" ≠ path) ∧
    (∀ (link : String) (argv0 : Option String) (path : String),
      is_self_binary_path (get_self_path (some link) argv0) path = true ↔
        (path = stripDeletedSuffix link ∨
         path = "/data/local/tmp/rmi")) := by
  refine ⟨?_, ?_, ?_, ?_⟩
  · intro env selfP path frame hself hlen hopen hw hchmod hrename
    have hchunk := chunkWrite_success env (path ++ ".new") hw
      frame.length 0 frame le_rfl
    constructor
    · rw [recv_frame_to_file]
      rw [if_neg (by omega : ¬ frame.length ≠ frame.length)]
      simp only [hself, eq_self_iff_true, if_true]
      rw [if_neg (fun hcon => absurd hcon.2 (by omega))]
      rw [if_neg (by simp [hopen])]
      rw [if_neg (by simp [hchunk.1])]
      rw [if_neg (by simp [hchmod]),
        if_neg (by simp [hrename]), hchunk.2.1]
      simp [List.append_assoc]
    · exact hchunk.2.2
  · intro env selfP path frame q hself hlen hmem
    rw [recv_frame_to_file] at hmem
    rw [if_neg (by omega : ¬ frame.length ≠ frame.length)] at hmem
    simp only [hself, eq_self_iff_true, if_true] at hmem
    rw [if_neg (fun hcon => absurd hcon.2 (by omega))] at hmem
    by_cases hopen : env.openOk (path ++ ".new") = false
    · rw [if_pos hopen] at hmem
      simp at hmem
      exact hmem
    · rw [if_neg hopen] at hmem
      by_cases hok :
          (chunkWriteFuel env (path ++ ".new") frame.length 0 frame).1 = false
      · rw [if_pos hok] at hmem
        simp only [List.mem_cons] at hmem
        rcases hmem with hmem | hmem
        · exact (FsOp.openW.injEq _ _).mp hmem.symm ▸ rfl
        · obtain ⟨ch, hch⟩ := chunkWrite_ops_writeData env _ _ _ _ _ hmem
          exact absurd hch (by simp)
      · rw [if_neg hok] at hmem
        by_cases hchmod : env.chmodOk (path ++ ".new") = false
        · rw [if_pos hchmod] at hmem
          simp only [List.mem_append, List.mem_cons, List.mem_singleton]
            at hmem
          rcases hmem with ((hmem | hmem) | hmem) | hmem
          · exact (FsOp.openW.injEq _ _).mp hmem.symm ▸ rfl
          · obtain ⟨ch, hch⟩ :=
              chunkWrite_ops_writeData env _ _ _ _ _ hmem
            exact absurd hch (by simp)
          · exact absurd hmem (by simp)
          · exact absurd hmem (by simp)
        · rw [if_neg hchmod] at hmem
          by_cases hrename : env.renameOk (path ++ ".new") path = false
          · rw [if_pos hrename] at hmem
            simp only [List.mem_append, List.mem_cons, List.mem_singleton]
              at hmem
            rcases hmem with (((hmem | hmem) | hmem) | hmem) | hmem
            · exact (FsOp.openW.injEq _ _).mp hmem.symm ▸ rfl
            · obtain ⟨ch, hch⟩ :=
                chunkWrite_ops_writeData env _ _ _ _ _ hmem
              exact absurd hch (by simp)
            · exact absurd hmem (by simp)
            · exact absurd hmem (by simp)
            · exact absurd hmem (by simp)
          · rw [if_neg hrename] at hmem
            simp only [List.mem_append, List.mem_cons, List.mem_singleton]
              at hmem
            rcases hmem with ((hmem | hmem) | hmem) | hmem
            · exact (FsOp.openW.injEq _ _).mp hmem.symm ▸ rfl
            · obtain ⟨ch, hch⟩ :=
                chunkWrite_ops_writeData env _ _ _ _ _ hmem
              exact absurd hch (by simp)
            · exact absurd hmem (by simp)
            · exact absurd hmem (by simp)
  · intro path h
    have hlen := congrArg String.length h
    rw [String.length_append] at hlen
    have h4 : (".new" : String).length = 4 := rfl
    omega
  · intro link argv0 path
    simp [is_self_binary_path, get_self_path]

theorem C2_self_upload_witness :
    is_self_binary_path none ("/data/local/tmp/rmi") = true ∧
    writtenBytes (chunkWriteFuel uenvAllOk ("/data/local/tmp/rmi" ++ ".new")
      3 0 [1, 2, 3]).2.2 = [1, 2, 3] ∧
    ("/data/local/tmp/rmi" ++ ".new" : String) ≠ "/data/local/tmp/rmi" :=
  ⟨by decide,
   (C2_self_upload.1 uenvAllOk none ("/data/local/tmp/rmi") [1, 2, 3]
      (by decide) (by decide) rfl rfl rfl rfl).2,
   C2_self_upload.2.2.1 ("/data/local/tmp/rmi")⟩

/-- A write failure on the very first chunk of a long frame consumes exactly
    one 4096-byte chunk and records no drain. -/
theorem recv_writeFail_partial (env : UploadEnv) (selfP : Option String)
    (path : String) (frame : List Nat)
    (hself : is_self_binary_path selfP path = false)
    (hopen : env.openOk path = true)
    (hw : env.writeFailAt = some 0)
    (hlen : 4096 < frame.length) :
    recv_frame_to_file env selfP path frame.length frame =
      (false, 4096, [FsOp.openW path]) := by
  rw [recv_frame_to_file]
  rw [if_neg (by omega : ¬ frame.length ≠ frame.length)]
  simp only [hself, Bool.false_eq_true, false_and, if_false]
  rw [if_neg (by simp [hopen])]
  cases frame with
  | nil => simp at hlen
  | cons b tl =>
    simp only [List.length_cons, chunkWriteFuel]
    rw [if_pos hw]
    simp only [if_pos rfl]
    simp only [List.length_take, List.length_cons]
    simp only [List.length_cons] at hlen
    have hmin : min 4096 (tl.length + 1) = 4096 := by omega
    rw [hmin, if_pos trivial]

/-- Claim C6 counterexample: a write failure partway through the data frame
    does NOT drain the remaining payload bytes.  With the first chunk write
    failing on a 4097-byte frame, recv_frame_to_file stops after consuming
    4096 bytes (one byte is left on the socket, breaking frame alignment)
    and its trace holds no drain operation; the claimed behaviour would
    consume all 4097. -/
theorem C6_upload_drain_counterexample :
    recv_frame_to_file uenvWriteFail0 none ("/tmp/f") 4097
        (List.replicate 4097 0) =
      (false, 4096, [FsOp.openW ("/tmp/f")]) ∧
    (4096 : Nat) ≠ 4097 := by
  constructor
  · have h := recv_writeFail_partial uenvWriteFail0 none ("/tmp/f")
      (List.replicate 4097 0) (by decide) rfl rfl
      (by rw [List.length_replicate]; omega)
    rw [List.length_replicate] at h
    exact h
  · decide

/-- Claim C6 (amended): a frame-size mismatch or a failed open of the
    destination drains the full payload off the socket and the command is
    answered ERR upload; but a write failure partway through the chunk loop
    stops reading at once, drains nothing (remaining payload bytes stay on
    the socket), and the command is still answered ERR upload; a fully
    successful receive is answered OK. -/
theorem C6_upload_drain :
    (∀ (env : UploadEnv) (selfP : Option String) (path : String)
        (frame : List Nat),
      is_self_binary_path selfP path = false →
      env.openOk path = false →
      recv_frame_to_file env selfP path frame.length frame =
        (false, frame.length,
         [FsOp.openW path, FsOp.drainOp frame.length])) ∧
    (∀ (env : UploadEnv) (selfP : Option String) (path : String)
        (frame : List Nat),
      is_self_binary_path selfP path = false →
      env.openOk path = true →
      env.writeFailAt = some 0 →
      4096 < frame.length →
      recv_frame_to_file env selfP path frame.length frame =
        (false, 4096, [FsOp.openW path]) ∧
      (∀ n, FsOp.drainOp n ∉
        (recv_frame_to_file env selfP path frame.length frame).2.2)) ∧
    (serverStep envDeny 0 true (cmdB ("UPLOAD /tmp/f 5"))
        (some (List.replicate 5 0)) =
      .next [errB ("upload")] 0 true 1) ∧
    (serverStep envAllow 0 true (cmdB ("UPLOAD /tmp/f 5"))
        (some (List.replicate 5 0)) =
      .next [okB] 0 true 1) := by
  refine ⟨?_, ?_, by decide, by decide⟩
  · intro env selfP path frame hself hopen
    rw [recv_frame_to_file]
    rw [if_neg (by omega : ¬ frame.length ≠ frame.length)]
    simp only [hself, Bool.false_eq_true, false_and, if_false]
    rw [if_pos hopen]
  · intro env selfP path frame hself hopen hw hlen
    have h := recv_writeFail_partial env selfP path frame hself hopen hw hlen
    refine ⟨h, ?_⟩
    rw [h]
    simp

theorem C6_upload_drain_witness :
    recv_frame_to_file uenvOpenFail none ("/tmp/f") 2 [1, 2] =
      (false, 2, [FsOp.openW ("/tmp/f"), FsOp.drainOp 2]) :=
  C6_upload_drain.1 uenvOpenFail none ("/tmp/f") [1, 2] (by decide) rfl

/-- Claim C7 counterexample: an entry that is neither a regular file nor a
    directory is NOT skipped.  A symlink (under lstat) of size 7 named s
    produces the line F tab s tab 7 newline, because send_file_list only
    tests S_ISDIR and emits the F line for every other stat-able entry. -/
theorem C7_list_lines_counterexample :
    entryLine ("/d") { name := "s", stat := some (FileKind.symlink, 7) } =
      some ("F\ts\t7\n") ∧
    some ("F\ts\t7\n") ≠ (none : Option String) := by
  constructor
  · decide
  · decide

/-- The buffer_append cap bounds every accumulated listing. -/
theorem buildListingAux_le (path : String) :
    ∀ (entries : List DirEnt) (acc s : String),
      acc.length ≤ 1048576 →
      buildListingAux path acc entries = some s →
      s.length ≤ 1048576 := by
  intro entries
  induction entries with
  | nil =>
    intro acc s hacc h
    simp only [buildListingAux, Option.some.injEq] at h
    rw [← h]
    exact hacc
  | cons e rest ih =>
    intro acc s hacc h
    simp only [buildListingAux] at h
    cases hline : entryLine path e with
    | none =>
      rw [hline] at h
      exact ih acc s hacc h
    | some line =>
      rw [hline] at h
      simp only at h
      by_cases hcap : 1048576 < acc.length + line.length + 1
      · rw [if_pos hcap] at h
        exact Option.noConfusion h
      · rw [if_neg hcap] at h
        exact ih (acc ++ line) s
          (by rw [String.length_append]; omega) h

/-- Claim C7 (amended): each enumerated entry (dot entries, join_path
    overflows and lstat failures excepted) yields exactly one line: the D
    line for a directory and the F line with st_size for EVERY other entry,
    regular or not (the source never tests S_ISREG); the whole listing is
    one frame of at most 1 MiB. -/
theorem C7_list_lines :
    (∀ (path : String) (e : DirEnt) (sz : Int),
      e.stat = some (FileKind.dir, sz) →
      ¬(e.name = "." ∨ e.name = "..") →
      joinPathOk path e.name = true →
      ("D\t" ++ e.name ++ "\n").length < 4160 →
      entryLine path e = some ("D\t" ++ e.name ++ "\n")) ∧
    (∀ (path : String) (e : DirEnt) (k : FileKind) (sz : Int),
      e.stat = some (k, sz) → k ≠ FileKind.dir →
      ¬(e.name = "." ∨ e.name = "..") →
      joinPathOk path e.name = true →
      ("F\t" ++ e.name ++ "\t" ++ toString sz ++ "\n").length < 4160 →
      entryLine path e =
        some ("F\t" ++ e.name ++ "\t" ++ toString sz ++ "\n")) ∧
    (∀ (path : String) (e : DirEnt), e.stat = none →
      entryLine path e = none) ∧
    (∀ (path : String) (e : DirEnt), (e.name = "." ∨ e.name = "..") →
      entryLine path e = none) ∧
    (∀ (path : String) (entries : List DirEnt) (s : String),
      buildListing path entries = some s → s.length ≤ 1048576) := by
  refine ⟨?_, ?_, ?_, ?_, ?_⟩
  · intro path e sz hstat hdot hjoin hfit
    rw [entryLine, if_neg hdot, if_neg (by simp [hjoin]), hstat]
    simp only [eq_self_iff_true, if_true]
    rw [if_neg (by omega)]
  · intro path e k sz hstat hk hdot hjoin hfit
    rw [entryLine, if_neg hdot, if_neg (by simp [hjoin]), hstat]
    simp only [if_neg hk]
    rw [if_neg (by omega)]
  · intro path e hstat
    rw [entryLine]
    split
    · rfl
    · split
      · rfl
      · rw [hstat]
  · intro path e hdot
    rw [entryLine, if_pos hdot]
  · intro path entries s h
    rw [buildListing] at h
    split at h
    · exact absurd h (by simp)
    · exact buildListingAux_le path entries ("") s (by simp) h

theorem C7_list_lines_witness :
    entryLine ("/d") { name := "sub", stat := some (FileKind.dir, 0) } =
      some ("D\tsub\n") ∧
    entryLine ("/d") { name := "f", stat := some (FileKind.reg, 12) } =
      some ("F\tf\t12\n") :=
  ⟨C7_list_lines.1 ("/d") _ 0 rfl (by decide) (by decide) (by decide),
   C7_list_lines.2.1 ("/d") _ FileKind.reg 12 rfl (by decide) (by decide)
     (by decide) (by decide)⟩

/-- Claim C8 counterexample: setDownloadProgress mutates the published
    received / total / in_progress fields of a download entry without any
    version bump: the record changes but its version does not increase. -/
theorem C8_version_counterexample :
    applyDownloadProgress 5 10 true DownloadResult.init ≠
      DownloadResult.init ∧
    (applyDownloadProgress 5 10 true DownloadResult.init).version =
      DownloadResult.init.version := by
  constructor
  · decide
  · rfl

/-- Claim C8 (amended): the terminal mutations (download success and error,
    list success and failure, screencap publication) each bump their version
    counter by exactly one, but the progress updates of setDownloadProgress
    and the field reset of requestDownload mutate published fields with the
    version unchanged. -/
theorem C8_version_bumps :
    (∀ (d : List Nat) (r : DownloadResult),
      (applyDownloadSuccess d r).version = r.version + 1) ∧
    (∀ (m : String) (r : DownloadResult),
      (applyDownloadError m r).version = r.version + 1) ∧
    (∀ (es : List FileEntry) (r : FileListResult),
      (applyListSuccess es r).version = r.version + 1) ∧
    (∀ (m : String) (r : FileListResult),
      (applyListFailure m r).version = r.version + 1) ∧
    (∀ (png pixels : List Nat) (w h : Int) (s : ScreencapState),
      (applyScreencapData png pixels w h s).version = s.version + 1) ∧
    (∀ (a b : Nat) (c : Bool) (r : DownloadResult),
      (applyDownloadProgress a b c r).version = r.version) ∧
    (∀ r : DownloadResult, (applyDownloadInit r).version = r.version) :=
  ⟨fun _ _ => rfl, fun _ _ => rfl, fun _ _ => rfl, fun _ _ => rfl,
   fun _ _ _ _ _ => rfl, fun _ _ _ _ => rfl, fun _ => rfl⟩

/-- Updating the found key updates what lookup returns. -/
theorem lookupDl_updateDl :
    ∀ (m : List (String × DownloadResult)) (p : String)
      (r v : DownloadResult),
      lookupDl m p = some r → lookupDl (updateDl m p v) p = some v := by
  intro m
  induction m with
  | nil =>
    intro p r v h
    simp [lookupDl] at h
  | cons kv t ih =>
    intro p r v h
    obtain ⟨k, r0⟩ := kv
    by_cases hk : k = p
    · rw [updateDl, if_pos hk, lookupDl, if_pos hk]
    · rw [lookupDl, if_neg hk] at h
      rw [updateDl, if_neg hk, lookupDl, if_neg hk]
      exact ih p r v h

/-- Claim C10: getDownloadResult with a non-null data pointer returns true
    for a present path, hands back the stored bytes, error and version,
    clears only the stored data (an immediate second call returns true with
    empty data), leaves error, version, total, received, in_progress of the
    entry unchanged, and for a missing path returns false leaving the map
    untouched. -/
theorem C10_download_result :
    (∀ (m : List (String × DownloadResult)) (path : String)
        (r : DownloadResult),
      lookupDl m path = some r →
      (getDownloadResult m path).1 = (true, r.data, r.error, r.version) ∧
      lookupDl (getDownloadResult m path).2 path =
        some { r with data := [] } ∧
      (getDownloadResult (getDownloadResult m path).2 path).1 =
        (true, [], r.error, r.version) ∧
      ({ r with data := [] } : DownloadResult).error = r.error ∧
      ({ r with data := [] } : DownloadResult).version = r.version ∧
      ({ r with data := [] } : DownloadResult).total = r.total ∧
      ({ r with data := [] } : DownloadResult).received = r.received ∧
      ({ r with data := [] } : DownloadResult).in_progress =
        r.in_progress) ∧
    (∀ (m : List (String × DownloadResult)) (path : String),
      lookupDl m path = none →
      getDownloadResult m path = ((false, [], "", 0), m)) := by
  constructor
  · intro m path r h
    have h2 : lookupDl (updateDl m path { r with data := [] }) path =
        some { r with data := [] } := lookupDl_updateDl m path r _ h
    refine ⟨?_, ?_, ?_, rfl, rfl, rfl, rfl, rfl⟩
    · simp only [getDownloadResult, h]
    · simp only [getDownloadResult, h]
      exact h2
    · simp only [getDownloadResult, h]
      simp only [getDownloadResult, h2]
  · intro m path h
    simp only [getDownloadResult, h]

theorem C10_download_result_witness :
    (getDownloadResult
        [(("a" : String),
          { data := [1, 2], error := "e", version := 3, total := 2,
            received := 2, in_progress := false })] ("a")).1 =
      (true, [1, 2], "e", 3) ∧
    getDownloadResult [] ("b") = ((false, [], "", 0), []) :=
  ⟨(C10_download_result.1 _ ("a")
      { data := [1, 2], error := "e", version := 3, total := 2,
        received := 2, in_progress := false } (by decide)).1,
   C10_download_result.2 [] ("b") rfl⟩

end RMI
